import Mathlib

/-!
Verification of the gold-transfer transaction of the D&D character
management app (`Steamliteapp.py` and `Steamlite_allapp.py`).

The database is modelled shallowly: the `Characters` table is an
association list from `character_id` to a row holding `race_id`,
`class_id` and `gold` (the columns of the `Characters` table that the
schema declares); the `Creatures` table (only its name column matters
here) stands in for "every other table" in frame conditions.  Each SQL
statement executed by `transfer_gold` becomes one pure Lean function,
and the transaction body becomes a pure state-passing function that
also records the lock/update events in execution order, so that
lock-ordering claims can be stated.  MySQL transaction semantics are
modelled by the rollback path returning the pre-call state, and a
possible `mysql.connector.Error` raised by any of the five statements
(two SELECT ... FOR UPDATE, two UPDATE, COMMIT) is modelled by an
optional fault parameter saying which statement raises.
-/

/-- One row of the `Characters` table: `character_id` is the key of the
association list, the remaining columns are `race_id`, `class_id`, `gold`. -/
structure CharRow where
  race_id : Int
  class_id : Int
  gold : Int
deriving DecidableEq, Repr

/-- The database state: the `Characters` table (keyed by `character_id`)
and the `Creatures` table (creature_id, creature_name), which the
transfer never touches. -/
structure DB where
  characters : List (Nat × CharRow)
  creatures : List (Nat × String)
deriving DecidableEq, Repr

/-- Observable store events of one `transfer_gold` call, in execution
order: `lockRow i` is the execution of
`SELECT gold FROM Characters WHERE character_id = i FOR UPDATE`,
`updateRow i` the execution of an `UPDATE ... WHERE character_id = i`. -/
inductive Ev where
  | lockRow (id : Nat)
  | updateRow (id : Nat)
deriving DecidableEq, Repr

/-- Which of the five store statements of the transaction raises a
`mysql.connector.Error`, if any. -/
inductive StoreFault where
  | onSelectFrom
  | onSelectTo
  | onDeduct
  | onAdd
  | onCommit
deriving DecidableEq, Repr

/-- `SELECT gold FROM Characters WHERE character_id = %s` followed by
`fetchone()`: the gold of the first row with the given key, if any. -/
def selectGold (db : DB) (id : Nat) : Option Int :=
  (db.characters.find? (fun p => p.1 == id)).map (fun p => p.2.gold)

/-- Apply a row function to every row of the table whose key matches
(the effect of an `UPDATE ... WHERE character_id = %s`). -/
def updateWhere : List (Nat × CharRow) → Nat → (CharRow → CharRow) → List (Nat × CharRow)
  | [], _, _ => []
  | p :: l, id, f => (if p.1 == id then (p.1, f p.2) else p) :: updateWhere l id f

/-- `UPDATE Characters SET gold = gold - %s WHERE character_id = %s`. -/
def sqlDeductGold (db : DB) (amount : Int) (id : Nat) : DB :=
  { db with characters := updateWhere db.characters id (fun r => { r with gold := r.gold - amount }) }

/-- `UPDATE Characters SET gold = gold + %s WHERE character_id = %s`. -/
def sqlAddGold (db : DB) (amount : Int) (id : Nat) : DB :=
  { db with characters := updateWhere db.characters id (fun r => { r with gold := r.gold + amount }) }

/-- Result of one `transfer_gold` call: the returned `(ok, message)`
pair, the committed database state after the call, and the store events
of the call in execution order. -/
structure TransferOutcome where
  ok : Bool
  msg : String
  db : DB
  events : List Ev
deriving DecidableEq, Repr

/-- Message produced by the `except Exception` handler when the store
itself raises. -/
def storeErrorMsg : String := "Gold transfer failed: MySQL error"

/-- Message for the `ValueError` raised when a `fetchone()` returned `None`. -/
def notFoundMsg : String :=
  "Gold transfer failed: One of the selected characters does not exist."

/-- Insufficient-gold message of `Steamliteapp.py` (ends in a period). -/
def insufficientMsgApp : String := "Gold transfer failed: Insufficient gold to transfer."

/-- Insufficient-gold message of `Steamlite_allapp.py` (ends in an
exclamation mark). -/
def insufficientMsgAll : String := "Gold transfer failed: Insufficient gold to transfer!"

/-- Success message of both implementations. -/
def successMsg : String := "Gold transfer successful!"

/-- `transfer_gold(from_id, to_id, amount)` of `Steamliteapp.py`
(lines 249-291): start a transaction, `SELECT ... FOR UPDATE` the
source row then the destination row, raise if either `fetchone()`
returned `None` or if the source gold is below `amount`, otherwise
deduct from the source and add to the destination and commit.  Every
exception is caught, the transaction rolled back (restoring the
pre-call state) and `(False, message)` returned.  `fault` injects a
`mysql.connector.Error` at the chosen statement. -/
def transfer_gold_run (fault : Option StoreFault) (db : DB)
    (from_id to_id : Nat) (amount : Int) : TransferOutcome :=
  if fault = some StoreFault.onSelectFrom then
    { ok := false, msg := storeErrorMsg, db := db, events := [] }
  else
    let ev1 : List Ev := [Ev.lockRow from_id]
    let from_gold_data := selectGold db from_id
    if fault = some StoreFault.onSelectTo then
      { ok := false, msg := storeErrorMsg, db := db, events := ev1 }
    else
      let ev2 : List Ev := ev1 ++ [Ev.lockRow to_id]
      let to_gold_data := selectGold db to_id
      match from_gold_data, to_gold_data with
      | none, _ => { ok := false, msg := notFoundMsg, db := db, events := ev2 }
      | some _, none => { ok := false, msg := notFoundMsg, db := db, events := ev2 }
      | some from_gold, some _to_gold =>
        if from_gold < amount then
          { ok := false, msg := insufficientMsgApp, db := db, events := ev2 }
        else if fault = some StoreFault.onDeduct then
          { ok := false, msg := storeErrorMsg, db := db, events := ev2 }
        else
          let db1 := sqlDeductGold db amount from_id
          let ev3 : List Ev := ev2 ++ [Ev.updateRow from_id]
          if fault = some StoreFault.onAdd then
            { ok := false, msg := storeErrorMsg, db := db, events := ev3 }
          else
            let db2 := sqlAddGold db1 amount to_id
            let ev4 : List Ev := ev3 ++ [Ev.updateRow to_id]
            if fault = some StoreFault.onCommit then
              { ok := false, msg := storeErrorMsg, db := db, events := ev4 }
            else
              { ok := true, msg := successMsg, db := db2, events := ev4 }

/-- `transfer_gold(from_id, to_id, amount)` of `Steamlite_allapp.py`
(lines 246-288): textually the same transaction as the one in
`Steamliteapp.py` except for the wording of the insufficient-gold
message. -/
def transfer_gold_all_run (fault : Option StoreFault) (db : DB)
    (from_id to_id : Nat) (amount : Int) : TransferOutcome :=
  if fault = some StoreFault.onSelectFrom then
    { ok := false, msg := storeErrorMsg, db := db, events := [] }
  else
    let ev1 : List Ev := [Ev.lockRow from_id]
    let from_gold_data := selectGold db from_id
    if fault = some StoreFault.onSelectTo then
      { ok := false, msg := storeErrorMsg, db := db, events := ev1 }
    else
      let ev2 : List Ev := ev1 ++ [Ev.lockRow to_id]
      let to_gold_data := selectGold db to_id
      match from_gold_data, to_gold_data with
      | none, _ => { ok := false, msg := notFoundMsg, db := db, events := ev2 }
      | some _, none => { ok := false, msg := notFoundMsg, db := db, events := ev2 }
      | some from_gold, some _to_gold =>
        if from_gold < amount then
          { ok := false, msg := insufficientMsgAll, db := db, events := ev2 }
        else if fault = some StoreFault.onDeduct then
          { ok := false, msg := storeErrorMsg, db := db, events := ev2 }
        else
          let db1 := sqlDeductGold db amount from_id
          let ev3 : List Ev := ev2 ++ [Ev.updateRow from_id]
          if fault = some StoreFault.onAdd then
            { ok := false, msg := storeErrorMsg, db := db, events := ev3 }
          else
            let db2 := sqlAddGold db1 amount to_id
            let ev4 : List Ev := ev3 ++ [Ev.updateRow to_id]
            if fault = some StoreFault.onCommit then
              { ok := false, msg := storeErrorMsg, db := db, events := ev4 }
            else
              { ok := true, msg := successMsg, db := db2, events := ev4 }

/-- The `(ok, message)` pair that the fault-free call returns to the UI. -/
def transfer_gold (db : DB) (from_id to_id : Nat) (amount : Int) : Bool × String :=
  let r := transfer_gold_run none db from_id to_id amount
  (r.ok, r.msg)

/-- The ids of the rows locked by `SELECT ... FOR UPDATE`, in
acquisition order. -/
def lockIds (evs : List Ev) : List Nat :=
  evs.filterMap (fun e => match e with | Ev.lockRow i => some i | Ev.updateRow _ => none)

/-- Every gold balance in the database is non-negative. -/
def allNonneg (db : DB) : Prop :=
  ∀ p ∈ db.characters, (0 : Int) ≤ p.2.gold

instance (db : DB) : Decidable (allNonneg db) := by
  unfold allNonneg; infer_instance

/-- A two-character database: Alice (id 1) with 100 gold and Bob (id 2)
with 50 gold. -/
def exDb : DB :=
  { characters := [(1, { race_id := 1, class_id := 1, gold := 100 }),
                   (2, { race_id := 1, class_id := 2, gold := 50 })],
    creatures := [(1, "Alice"), (2, "Bob")] }

/-- A database with balances 10 and 10. -/
def exDbTen : DB :=
  { characters := [(1, { race_id := 1, class_id := 1, gold := 10 }),
                   (2, { race_id := 1, class_id := 2, gold := 10 })],
    creatures := [(1, "Alice"), (2, "Bob")] }

/-- A database with balances 10 and 3. -/
def exDbSmall : DB :=
  { characters := [(1, { race_id := 1, class_id := 1, gold := 10 }),
                   (2, { race_id := 1, class_id := 2, gold := 3 })],
    creatures := [(1, "Alice"), (2, "Bob")] }

/-- Relation between a pre-state row of the `Characters` table and the
post-state row at the same position: the key, `race_id` and `class_id`
never change, and the gold may change only for the two transferred ids. -/
def rowFramePreserved (f t : Nat) (p q : Nat × CharRow) : Prop :=
  p.1 = q.1 ∧ p.2.race_id = q.2.race_id ∧ p.2.class_id = q.2.class_id ∧
    (p.1 ≠ f → p.1 ≠ t → p.2.gold = q.2.gold)

/-! ### Association-list lemmas about `find?` and `updateWhere` -/

theorem find?_updateWhere_self (l : List (Nat × CharRow)) (id : Nat) (f : CharRow → CharRow) :
    (updateWhere l id f).find? (fun p => p.1 == id) =
      (l.find? (fun p => p.1 == id)).map (fun p => (p.1, f p.2)) := by
  induction l with
  | nil => rfl
  | cons p l ih =>
    cases h : (p.1 == id) with
    | true => simp [updateWhere, List.find?, h]
    | false => simpa [updateWhere, List.find?, h] using ih

theorem find?_updateWhere_ne (l : List (Nat × CharRow)) (id j : Nat)
    (f : CharRow → CharRow) (hne : j ≠ id) :
    (updateWhere l id f).find? (fun p => p.1 == j) = l.find? (fun p => p.1 == j) := by
  induction l with
  | nil => rfl
  | cons p l ih =>
    cases h : (p.1 == id) with
    | true =>
      have hpj : (p.1 == j) = false := by
        rw [beq_eq_false_iff_ne]
        rw [beq_iff_eq] at h
        subst h
        exact fun hc => hne hc.symm
      simp [updateWhere, List.find?, h, hpj, ih]
    | false =>
      cases hj : (p.1 == j) with
      | true => simp [updateWhere, List.find?, h, hj]
      | false => simp [updateWhere, List.find?, h, hj, ih]

theorem selectGold_sqlDeductGold_self (db : DB) (a : Int) (id : Nat) :
    selectGold (sqlDeductGold db a id) id = (selectGold db id).map (fun g => g - a) := by
  unfold selectGold sqlDeductGold
  rw [find?_updateWhere_self]
  cases db.characters.find? (fun p => p.1 == id) <;> rfl

theorem selectGold_sqlDeductGold_ne (db : DB) (a : Int) (id j : Nat) (hne : j ≠ id) :
    selectGold (sqlDeductGold db a id) j = selectGold db j := by
  unfold selectGold sqlDeductGold
  rw [find?_updateWhere_ne _ _ _ _ hne]

theorem selectGold_sqlAddGold_self (db : DB) (a : Int) (id : Nat) :
    selectGold (sqlAddGold db a id) id = (selectGold db id).map (fun g => g + a) := by
  unfold selectGold sqlAddGold
  rw [find?_updateWhere_self]
  cases db.characters.find? (fun p => p.1 == id) <;> rfl

theorem selectGold_sqlAddGold_ne (db : DB) (a : Int) (id j : Nat) (hne : j ≠ id) :
    selectGold (sqlAddGold db a id) j = selectGold db j := by
  unfold selectGold sqlAddGold
  rw [find?_updateWhere_ne _ _ _ _ hne]

theorem updateWhere_updateWhere_self (l : List (Nat × CharRow)) (id : Nat)
    (f g : CharRow → CharRow) :
    updateWhere (updateWhere l id f) id g = updateWhere l id (fun r => g (f r)) := by
  induction l with
  | nil => rfl
  | cons p l ih =>
    cases h : (p.1 == id) with
    | true => simp [updateWhere, h, ih]
    | false => simp [updateWhere, h, ih]

theorem updateWhere_eq_self (l : List (Nat × CharRow)) (id : Nat)
    (f : CharRow → CharRow) (hf : ∀ r, f r = r) :
    updateWhere l id f = l := by
  induction l with
  | nil => rfl
  | cons p l ih =>
    cases h : (p.1 == id) with
    | true => simp [updateWhere, h, ih, hf]
    | false => simp [updateWhere, h, ih]

theorem sqlAddGold_sqlDeductGold_cancel (db : DB) (a : Int) (id : Nat) :
    sqlAddGold (sqlDeductGold db a id) a id = db := by
  cases db with
  | mk chars creatures =>
    simp only [sqlAddGold, sqlDeductGold]
    rw [updateWhere_updateWhere_self]
    rw [updateWhere_eq_self]
    intro r
    cases r with
    | mk ra cl go => simp

theorem find?_eq_of_mem_nodup (l : List (Nat × CharRow)) (p : Nat × CharRow) (id : Nat)
    (hnd : (l.map Prod.fst).Nodup) (hp : p ∈ l) (hid : p.1 = id) :
    l.find? (fun q => q.1 == id) = some p := by
  induction l with
  | nil => cases hp
  | cons q l ih =>
    rw [List.map_cons, List.nodup_cons] at hnd
    rcases List.mem_cons.mp hp with hq | hmem
    · subst hq
      simp [List.find?, hid]
    · have hq1 : (q.1 == id) = false := by
        rw [beq_eq_false_iff_ne]
        intro hcon
        exact hnd.1 (hcon ▸ hid ▸ (List.mem_map.mpr ⟨p, hmem, rfl⟩))
      simp only [List.find?, hq1]
      exact ih hnd.2 hmem

/-! ### Characterization of a `transfer_gold` run -/

theorem transfer_run_success_eq (db : DB) (f t : Nat) (a fg tg : Int)
    (hf : selectGold db f = some fg) (ht : selectGold db t = some tg) (hge : a ≤ fg) :
    transfer_gold_run none db f t a =
      { ok := true, msg := successMsg, db := sqlAddGold (sqlDeductGold db a f) a t,
        events := [Ev.lockRow f, Ev.lockRow t, Ev.updateRow f, Ev.updateRow t] } := by
  simp [transfer_gold_run, hf, ht, not_lt.mpr hge]

theorem transfer_run_spec (fault : Option StoreFault) (db : DB) (f t : Nat) (a : Int) :
    ((transfer_gold_run fault db f t a).ok = false ∧ (transfer_gold_run fault db f t a).db = db) ∨
    ((transfer_gold_run fault db f t a).ok = true ∧
      ∃ fg, selectGold db f = some fg ∧ a ≤ fg ∧
        (transfer_gold_run fault db f t a).db = sqlAddGold (sqlDeductGold db a f) a t) := by
  simp only [transfer_gold_run]
  repeat' split
  all_goals simp_all

/-! ### Claim theorems -/

/-- C1: for every `transfer_gold(from_id, to_id, amount)` call in which
both entities exist, `from_id ≠ to_id`, `amount` is a positive integer
and the source balance is at least `amount`, the call returns ok=True,
the source's post-state gold is its pre-state gold minus `amount`, the
destination's post-state gold is its pre-state gold plus `amount`, and
the sum of the two balances is conserved. -/
theorem transfer_gold_valid_success (db : DB) (f t : Nat) (a fg tg : Int)
    (hne : f ≠ t) (hpos : 0 < a)
    (hf : selectGold db f = some fg) (ht : selectGold db t = some tg)
    (hge : a ≤ fg) :
    (transfer_gold_run none db f t a).ok = true ∧
    selectGold (transfer_gold_run none db f t a).db f = some (fg - a) ∧
    selectGold (transfer_gold_run none db f t a).db t = some (tg + a) ∧
    (fg - a) + (tg + a) = fg + tg := by
  rw [transfer_run_success_eq db f t a fg tg hf ht hge]
  refine ⟨rfl, ?_, ?_, by ring⟩
  · rw [selectGold_sqlAddGold_ne _ _ _ _ hne, selectGold_sqlDeductGold_self, hf]
    rfl
  · rw [selectGold_sqlAddGold_self, selectGold_sqlDeductGold_ne _ _ _ _ (Ne.symm hne), ht]
    rfl

theorem transfer_gold_valid_success_witness :
    (transfer_gold_run none exDb 1 2 30).ok = true ∧
    selectGold (transfer_gold_run none exDb 1 2 30).db 1 = some (100 - 30) ∧
    selectGold (transfer_gold_run none exDb 1 2 30).db 2 = some (50 + 30) ∧
    ((100 : Int) - 30) + (50 + 30) = 100 + 50 :=
  transfer_gold_valid_success exDb 1 2 30 100 50 (by decide) (by decide)
    (by decide) (by decide) (by decide)

/-- C2: whenever a `transfer_gold` call returns ok=False — for a missing
entity, an insufficient balance, or a store error raised at any of the
five statements of the transaction — the committed database state after
the call is identical to the state before the call; the exception is
caught inside the function and converted into the returned
`(False, message)` pair. -/
theorem transfer_gold_failure_preserves_state (fault : Option StoreFault) (db : DB)
    (f t : Nat) (a : Int)
    (h : (transfer_gold_run fault db f t a).ok = false) :
    (transfer_gold_run fault db f t a).db = db := by
  rcases transfer_run_spec fault db f t a with ⟨_, hdb⟩ | ⟨hok, _⟩
  · exact hdb
  · rw [hok] at h
    cases h

theorem transfer_gold_failure_preserves_state_witness :
    (transfer_gold_run (some StoreFault.onAdd) exDb 1 2 30).ok = false ∧
    (transfer_gold_run (some StoreFault.onAdd) exDb 1 2 30).db = exDb :=
  ⟨by decide, transfer_gold_failure_preserves_state (some StoreFault.onAdd) exDb 1 2 30 (by decide)⟩

/-- C3 (amended): `transfer_gold` acquires its two `SELECT ... FOR
UPDATE` row locks in call-argument order — always `from_id` first, then
`to_id` — not in ascending entity-id order; when `from_id > to_id` the
higher id is locked first. -/
theorem transfer_gold_locks_in_argument_order (db : DB) (f t : Nat) (a : Int) :
    lockIds (transfer_gold_run none db f t a).events = [f, t] := by
  simp only [transfer_gold_run]
  repeat' split
  all_goals simp_all [lockIds]

/-- C3 counterexample: with both rows existing, the call
`transfer_gold(2, 1, 5)` acquires the lock on row 2 — the higher id —
before the lock on row 1, refuting the ascending-id lock-order claim. -/
theorem transfer_gold_lock_order_counterexample :
    lockIds (transfer_gold_run none exDb 2 1 5).events = [2, 1] ∧ (1 : Nat) < 2 := by
  decide

/-- C4 (amended): `transfer_gold` itself performs no same-entity check
(the UI layer rejects equal ids before calling it).  For
`from_id = to_id` the function locks and reads the single row and runs
the transfer against it; the committed state always equals the
pre-state (the deduction and the addition cancel), and the call returns
ok=True exactly when the entity exists with gold ≥ amount. -/
theorem transfer_gold_same_entity_behavior (db : DB) (i : Nat) (a : Int) :
    (transfer_gold_run none db i i a).db = db ∧
    ((transfer_gold_run none db i i a).ok = true ↔
      ∃ g, selectGold db i = some g ∧ a ≤ g) := by
  rcases hsel : selectGold db i with _ | g
  · constructor
    · simp [transfer_gold_run, hsel]
    · simp [transfer_gold_run, hsel]
  · by_cases hlt : g < a
    · constructor
      · simp [transfer_gold_run, hsel, hlt]
      · simp [transfer_gold_run, hsel, hlt]
    · rw [transfer_run_success_eq db i i a g g hsel hsel (le_of_not_lt hlt)]
      refine ⟨sqlAddGold_sqlDeductGold_cancel db a i, ?_⟩
      simp [hsel]
      exact le_of_not_lt hlt

/-- C4 counterexample: `transfer_gold(1, 1, 5)` on a database where
entity 1 has 100 gold returns ok=True — it does not fail with a
same-entity error — and it does acquire locks (twice on row 1). -/
theorem transfer_gold_same_entity_counterexample :
    (transfer_gold_run none exDb 1 1 5).ok = true ∧
    lockIds (transfer_gold_run none exDb 1 1 5).events = [1, 1] := by
  decide

/-- C5 (amended): `transfer_gold` performs no `amount > 0` validation
(only the UI number input enforces amount ≥ 1).  For amount ≤ 0,
whenever both entities exist with distinct ids and the source balance
is at least `amount` (true of any non-negative balance), the call
succeeds and applies the deltas, so a negative amount moves gold from
the destination to the source. -/
theorem transfer_gold_nonpositive_amount_behavior (db : DB) (f t : Nat) (a fg tg : Int)
    (hne : f ≠ t) (hnp : a ≤ 0)
    (hf : selectGold db f = some fg) (ht : selectGold db t = some tg)
    (hge : a ≤ fg) :
    (transfer_gold_run none db f t a).ok = true ∧
    selectGold (transfer_gold_run none db f t a).db f = some (fg - a) ∧
    selectGold (transfer_gold_run none db f t a).db t = some (tg + a) := by
  rw [transfer_run_success_eq db f t a fg tg hf ht hge]
  refine ⟨rfl, ?_, ?_⟩
  · rw [selectGold_sqlAddGold_ne _ _ _ _ hne, selectGold_sqlDeductGold_self, hf]
    rfl
  · rw [selectGold_sqlAddGold_self, selectGold_sqlDeductGold_ne _ _ _ _ (Ne.symm hne), ht]
    rfl

theorem transfer_gold_nonpositive_amount_behavior_witness :
    (transfer_gold_run none exDbTen 1 2 (-5)).ok = true ∧
    selectGold (transfer_gold_run none exDbTen 1 2 (-5)).db 1 = some (10 - (-5)) ∧
    selectGold (transfer_gold_run none exDbTen 1 2 (-5)).db 2 = some (10 + (-5)) :=
  transfer_gold_nonpositive_amount_behavior exDbTen 1 2 (-5) 10 10 (by decide)
    (by decide) (by decide) (by decide) (by decide)

/-- C5 counterexample: with balances 10/10, `transfer_gold(1, 2, -5)`
does not fail: it returns ok=True and moves 5 gold from entity 2 to
entity 1, leaving balances 15 and 5. -/
theorem transfer_gold_nonpositive_counterexample :
    (transfer_gold_run none exDbTen 1 2 (-5)).ok = true ∧
    selectGold (transfer_gold_run none exDbTen 1 2 (-5)).db 1 = some 15 ∧
    selectGold (transfer_gold_run none exDbTen 1 2 (-5)).db 2 = some 5 := by
  decide

theorem mem_updateWhere (l : List (Nat × CharRow)) (id : Nat) (f : CharRow → CharRow)
    (p : Nat × CharRow) (hp : p ∈ updateWhere l id f) :
    ∃ q ∈ l, p = if q.1 == id then (q.1, f q.2) else q := by
  induction l with
  | nil => cases hp
  | cons q l ih =>
    simp only [updateWhere] at hp
    rcases List.mem_cons.mp hp with h | h
    · exact ⟨q, List.mem_cons_self q l, h⟩
    · obtain ⟨q', hq', he⟩ := ih h
      exact ⟨q', List.mem_cons_of_mem q hq', he⟩

/-- C6 (amended): gold balances are (signed) INTEGER columns with no
schema constraint, but non-negativity of all balances is preserved by
every `transfer_gold` call with a non-negative amount (given the
primary-key uniqueness of `character_id`): a failing call leaves the
state unchanged, and a succeeding call only performs a checked
deduction and an addition of a non-negative amount.  Calls with a
negative amount can break the invariant. -/
theorem transfer_gold_preserves_nonneg (fault : Option StoreFault) (db : DB)
    (f t : Nat) (a : Int)
    (hnd : (db.characters.map Prod.fst).Nodup)
    (ha : 0 ≤ a) (hnn : allNonneg db) :
    allNonneg (transfer_gold_run fault db f t a).db := by
  rcases transfer_run_spec fault db f t a with ⟨_, hdb⟩ | ⟨_, ⟨fg, hf, hge, hdb⟩⟩
  · rw [hdb]
    exact hnn
  · rw [hdb]
    intro p hp
    simp only [sqlAddGold, sqlDeductGold] at hp
    obtain ⟨q', hq', hpe⟩ := mem_updateWhere _ _ _ _ hp
    obtain ⟨q, hq, hqe⟩ := mem_updateWhere _ _ _ _ hq'
    subst hqe hpe
    have hq0 := hnn q hq
    by_cases h1 : q.1 = f
    · have hfind := find?_eq_of_mem_nodup db.characters q f hnd hq h1
      have hgold : q.2.gold = fg := by
        unfold selectGold at hf
        rw [hfind] at hf
        simpa using hf
      subst h1
      by_cases h2 : q.1 = t
      · subst h2
        simp
        omega
      · simp [h2]
        omega
    · by_cases h2 : q.1 = t
      · subst h2
        simp [h1]
        omega
      · simp [h1, h2]
        omega

theorem transfer_gold_preserves_nonneg_witness :
    (exDb.characters.map Prod.fst).Nodup ∧ (0 : Int) ≤ 30 ∧ allNonneg exDb ∧
    allNonneg (transfer_gold_run none exDb 1 2 30).db :=
  ⟨by decide, by decide, by decide,
    transfer_gold_preserves_nonneg none exDb 1 2 30 (by decide) (by decide) (by decide)⟩

/-- C6 counterexample: all balances of the pre-state (10 and 3) are
non-negative, yet `transfer_gold(1, 2, -5)` succeeds and leaves entity
2 with -2 gold, so the non-negativity invariant is not preserved by
every call. -/
theorem transfer_gold_nonneg_counterexample :
    allNonneg exDbSmall ∧ ¬ allNonneg (transfer_gold_run none exDbSmall 1 2 (-5)).db := by
  decide

/-- C7: when both entities exist but the just-locked source balance is
strictly below the requested amount, the call fails with the
insufficient-gold error and the state is unchanged.  The witness runs
the spec's concrete scenario (balances 100/50, a successful transfer of
30 giving 70/80, then a failing transfer of 1000 leaving 70/80). -/
theorem transfer_gold_insufficient_fails (db : DB) (f t : Nat) (a fg tg : Int)
    (hf : selectGold db f = some fg) (ht : selectGold db t = some tg)
    (hlt : fg < a) :
    (transfer_gold_run none db f t a).ok = false ∧
    (transfer_gold_run none db f t a).msg = insufficientMsgApp ∧
    (transfer_gold_run none db f t a).db = db := by
  simp [transfer_gold_run, hf, ht, hlt]

theorem transfer_gold_insufficient_fails_witness :
    (transfer_gold_run none exDb 1 2 30).ok = true ∧
    selectGold (transfer_gold_run none exDb 1 2 30).db 1 = some 70 ∧
    selectGold (transfer_gold_run none exDb 1 2 30).db 2 = some 80 ∧
    (transfer_gold_run none (transfer_gold_run none exDb 1 2 30).db 1 2 1000).ok = false ∧
    (transfer_gold_run none (transfer_gold_run none exDb 1 2 30).db 1 2 1000).msg =
      insufficientMsgApp ∧
    (transfer_gold_run none (transfer_gold_run none exDb 1 2 30).db 1 2 1000).db =
      (transfer_gold_run none exDb 1 2 30).db := by
  refine ⟨by decide, by decide, by decide, ?_⟩
  exact transfer_gold_insufficient_fails (transfer_gold_run none exDb 1 2 30).db 1 2 1000 70 80
    (by decide) (by decide) (by decide)

/-- C8: if at least one of the two entities does not exist in the
store, the call returns ok=False with the not-found message and no
balance changes. -/
theorem transfer_gold_missing_entity_fails (db : DB) (f t : Nat) (a : Int)
    (h : selectGold db f = none ∨ selectGold db t = none) :
    (transfer_gold_run none db f t a).ok = false ∧
    (transfer_gold_run none db f t a).msg = notFoundMsg ∧
    (transfer_gold_run none db f t a).db = db := by
  rcases h with h | h
  · simp [transfer_gold_run, h]
  · rcases hf : selectGold db f with _ | fg <;> simp [transfer_gold_run, hf, h]

theorem transfer_gold_missing_entity_fails_witness :
    (selectGold exDb 3 = none ∨ selectGold exDb 2 = none) ∧
    (transfer_gold_run none exDb 3 2 10).ok = false ∧
    (transfer_gold_run none exDb 3 2 10).msg = notFoundMsg ∧
    (transfer_gold_run none exDb 3 2 10).db = exDb :=
  ⟨Or.inl (by decide), transfer_gold_missing_entity_fails exDb 3 2 10 (Or.inl (by decide))⟩

theorem frame_two_updates (f t : Nat) (a : Int) (l : List (Nat × CharRow)) :
    List.Forall₂ (rowFramePreserved f t) l
      (updateWhere (updateWhere l f (fun r => { r with gold := r.gold - a })) t
        (fun r => { r with gold := r.gold + a })) := by
  induction l with
  | nil => exact List.Forall₂.nil
  | cons p l ih =>
    refine List.Forall₂.cons ?_ ih
    by_cases h1 : p.1 = f
    · subst h1
      by_cases h2 : p.1 = t
      · subst h2
        simp [rowFramePreserved]
      · simp [rowFramePreserved, h2]
    · by_cases h2 : p.1 = t
      · subst h2
        simp [rowFramePreserved, h1]
      · simp [rowFramePreserved, h1, h2]

theorem forall2_rowFramePreserved_refl (f t : Nat) (l : List (Nat × CharRow)) :
    List.Forall₂ (rowFramePreserved f t) l l :=
  List.forall₂_same.mpr (fun p _ => ⟨rfl, rfl, rfl, fun _ _ => rfl⟩)

/-- C9: the only mutations a `transfer_gold` call can make are to the
gold fields of the rows keyed `from_id` and `to_id`: the Creatures
table is unchanged, the Characters table keeps the same rows in the
same order with the same keys, `race_id` and `class_id`, and every row
whose key is neither `from_id` nor `to_id` keeps its gold — whether the
call succeeds or fails, for every fault scenario. -/
theorem transfer_gold_frame (fault : Option StoreFault) (db : DB) (f t : Nat) (a : Int) :
    (transfer_gold_run fault db f t a).db.creatures = db.creatures ∧
    List.Forall₂ (rowFramePreserved f t) db.characters
      (transfer_gold_run fault db f t a).db.characters := by
  rcases transfer_run_spec fault db f t a with ⟨_, hdb⟩ | ⟨_, ⟨fg, hf, hge, hdb⟩⟩
  · rw [hdb]
    exact ⟨rfl, forall2_rowFramePreserved_refl f t db.characters⟩
  · rw [hdb]
    exact ⟨rfl, frame_two_updates f t a db.characters⟩

theorem transfer_gold_frame_witness :
    (transfer_gold_run none exDb 1 2 30).db.creatures = exDb.creatures ∧
    List.Forall₂ (rowFramePreserved 1 2) exDb.characters
      (transfer_gold_run none exDb 1 2 30).db.characters :=
  transfer_gold_frame none exDb 1 2 30

/-- C10: the `transfer_gold` of `Steamliteapp.py` and the
`transfer_gold` of `Steamlite_allapp.py` are behaviorally equivalent:
on every fault scenario, database state and argument triple they return
the same success flag, leave the store in the same final state, and
perform the same store events in the same order; only the wording of
the insufficient-gold failure message differs. -/
theorem transfer_gold_impls_equivalent (fault : Option StoreFault) (db : DB)
    (f t : Nat) (a : Int) :
    (transfer_gold_all_run fault db f t a).ok = (transfer_gold_run fault db f t a).ok ∧
    (transfer_gold_all_run fault db f t a).db = (transfer_gold_run fault db f t a).db ∧
    (transfer_gold_all_run fault db f t a).events = (transfer_gold_run fault db f t a).events := by
  simp only [transfer_gold_run, transfer_gold_all_run]
  repeat' split
  all_goals simp_all
